import Mathlib

/-!
Shallow embedding of the data-validation components of the IBEX imaging
knowledge-base utility scripts, and proofs about them.

The embedding covers:
* the two URL-existence checkers (`validation_utilities.url_exists` and
  `url_exists.url_exists`),
* the bounded retry loops (`url_exists_with_retries`,
  `urls_exist_with_retries`),
* the domain-grouped multi-URL checker (`validation_utilities.check_urls`),
* the generic tabular validator (`validation_utilities.validate_df`),
* `validate_zenodo_json`, `validate_bib_file_data` and the
  reagent-resources-specific checks of `validate_reagent_resources`.

Network and file-system effects are abstracted as oracles (for each URL, does
it exist; for each retry attempt, does the check succeed), and each `print`
call is recorded by the output stream it writes to.  An uncaught Python
exception is modelled as `Except.error ()`.
-/

namespace Ibex

/-! ### HTTP request outcomes and the two `url_exists` functions -/

/-- Outcome of one HTTP request issued through the `requests` library: either a
response carrying a numeric status code, or one of the exception classes the
scripts catch (`requests.exceptions.Timeout`, `requests.exceptions.SSLError`,
or any other `requests.exceptions.RequestException`). -/
inductive ReqOutcome : Type
  | status (code : Nat)
  | timeout
  | sslError
  | otherError
deriving DecidableEq, Repr

/-- Status codes that `validation_utilities.url_exists` accepts as indicating
that the URL exists: 200, the 30x redirects, and 403 forbidden. -/
def okStatusCodes : List Nat := [200, 301, 302, 303, 307, 308, 403]

/-- `validation_utilities.url_exists`: a HEAD request is issued; if it returns
status 405 a GET request is issued and its response replaces the HEAD one.
The final status is accepted when it is in `okStatusCodes`; a `Timeout` or an
`SSLError` anywhere in the `try` block yields `True`; any other
`RequestException` yields `False`.  `headOutcome` is the outcome of the HEAD
request and `getOutcome` the outcome of the GET request that is performed only
in the 405 case. -/
def url_exists (headOutcome getOutcome : ReqOutcome) : Bool :=
  match headOutcome with
  | ReqOutcome.status c =>
      if c = 405 then
        match getOutcome with
        | ReqOutcome.status c2 => okStatusCodes.contains c2
        | ReqOutcome.timeout => true
        | ReqOutcome.sslError => true
        | ReqOutcome.otherError => false
      else okStatusCodes.contains c
  | ReqOutcome.timeout => true
  | ReqOutcome.sslError => true
  | ReqOutcome.otherError => false

/-- The checker of module `url_exists.py` (also named `url_exists`): a single
GET request; only a 200 status counts as existing, and every
`RequestException` -- timeouts and SSL errors included -- yields `False`. -/
def url_exists_simple (outcome : ReqOutcome) : Bool :=
  match outcome with
  | ReqOutcome.status c => c = 200
  | ReqOutcome.timeout => false
  | ReqOutcome.sslError => false
  | ReqOutcome.otherError => false

/-- The outcome whose status decides `validation_utilities.url_exists`: the
HEAD outcome, unless it was a 405 response, in which case the GET outcome. -/
def finalOutcome (headOutcome getOutcome : ReqOutcome) : ReqOutcome :=
  match headOutcome with
  | ReqOutcome.status c => if c = 405 then getOutcome else ReqOutcome.status c
  | o => o

/-- Outcomes that `validation_utilities.url_exists` interprets as "the URL
exists": an accepted status code, a timeout, or an SSL error. -/
def indicatesReachable : ReqOutcome → Bool
  | ReqOutcome.status c => okStatusCodes.contains c
  | ReqOutcome.timeout => true
  | ReqOutcome.sslError => true
  | ReqOutcome.otherError => false

/-- C1 counterexample: the claim states that every URL-existence-check function
used by the scripts returns `True` on a timeout and on a 403 response.  The
checker in `url_exists.py` (used by `validate_zenodo_json` through its
`check_urls`) returns `False` for both. -/
theorem C1_counterexample :
    url_exists_simple ReqOutcome.timeout = false ∧
    url_exists_simple (ReqOutcome.status 403) = false := by
  exact ⟨rfl, rfl⟩

/-- C1 (amended): the checker in `validation_utilities.py` errs toward `True`
(timeouts, SSL errors and 403 responses all count as existing, and it returns
`True` exactly for the reachability-indicating final outcomes), while the
checker in `url_exists.py` returns `True` exactly for a 200 response and
`False` for every request failure, timeouts and 403 responses included. -/
theorem C1_err_toward_true (headOutcome getOutcome o : ReqOutcome) :
    url_exists ReqOutcome.timeout getOutcome = true ∧
    url_exists ReqOutcome.sslError getOutcome = true ∧
    url_exists (ReqOutcome.status 403) getOutcome = true ∧
    url_exists headOutcome getOutcome =
      indicatesReachable (finalOutcome headOutcome getOutcome) ∧
    (url_exists_simple o = true ↔ o = ReqOutcome.status 200) := by
  refine ⟨rfl, rfl, rfl, ?_, ?_⟩
  · cases headOutcome with
    | status c =>
        by_cases hc : c = 405
        · subst hc
          cases getOutcome <;> simp [url_exists, finalOutcome, indicatesReachable]
        · simp [url_exists, finalOutcome, indicatesReachable, hc]
    | timeout => rfl
    | sslError => rfl
    | otherError => rfl
  · cases o with
    | status c => simp [url_exists_simple]
    | timeout => simp [url_exists_simple]
    | sslError => simp [url_exists_simple]
    | otherError => simp [url_exists_simple]

/-! ### The bounded retry loops -/

/-- Trace of one URL's retry loop: the boolean result, the number of calls to
the underlying existence check, and the durations slept (in seconds, as
rationals: `2 ^ i` plus the random jitter drawn before retry `i`). -/
structure RetryTrace where
  result : Bool
  checks : Nat
  sleeps : List ℚ
deriving DecidableEq

/-- The retry loop
`for i in range(retry_num): time.sleep(pow(2, i) + random()); if url_exists(...): return True`
of `url_exists_with_retries` in `url_exists.py`; the
`while i < retry_num and not_successful` loop of `urls_exist_with_retries` in
`validation_utilities.py` performs exactly the same sequence of sleeps and
checks.  `check k` is the outcome of the `k`-th existence check for this URL
(`k = 0` being the check made before the loop), `jitter i` is the random value
drawn before retry `i`, `i` is the current loop index and the last argument is
the number of remaining iterations (`retry_num - i`). -/
def retry_loop (check : Nat → Bool) (jitter : Nat → ℚ) : Nat → Nat → RetryTrace
  | _, 0 => ⟨false, 0, []⟩
  | i, rem + 1 =>
    let sl : ℚ := 2 ^ i + jitter i
    if check (i + 1) then ⟨true, 1, [sl]⟩
    else
      let t := retry_loop check jitter (i + 1) rem
      ⟨t.result, t.checks + 1, sl :: t.sleeps⟩

/-- `url_exists_with_retries` for a single URL: one initial existence check,
then the bounded retry loop with exponential backoff. -/
def url_exists_with_retries (check : Nat → Bool) (jitter : Nat → ℚ)
    (retry_num : Nat) : RetryTrace :=
  if check 0 then ⟨true, 1, []⟩
  else
    let t := retry_loop check jitter 0 retry_num
    ⟨t.result, t.checks + 1, t.sleeps⟩

theorem retry_loop_spec (check : Nat → Bool) (jitter : Nat → ℚ) :
    ∀ rem i,
      (retry_loop check jitter i rem).checks ≤ rem ∧
      ((retry_loop check jitter i rem).result = false →
        (retry_loop check jitter i rem).checks = rem ∧
        ∀ k, i < k → k ≤ i + rem → check k = false) ∧
      ((retry_loop check jitter i rem).result = true →
        0 < (retry_loop check jitter i rem).checks ∧
        check (i + (retry_loop check jitter i rem).checks) = true ∧
        ∀ k, i < k → k < i + (retry_loop check jitter i rem).checks →
          check k = false) ∧
      (retry_loop check jitter i rem).sleeps =
        (List.range (retry_loop check jitter i rem).checks).map
          (fun j => 2 ^ (i + j) + jitter (i + j)) := by
  intro rem
  induction rem with
  | zero =>
      intro i
      refine ⟨Nat.le_refl 0, fun _ => ⟨rfl, fun k hk hk2 => by omega⟩,
        fun h => by simp [retry_loop] at h, rfl⟩
  | succ rem ih =>
      intro i
      by_cases hc : check (i + 1) = true
      · have hdef : retry_loop check jitter i (rem + 1) = ⟨true, 1, [2 ^ i + jitter i]⟩ := by
          simp [retry_loop, hc]
        have hresv : (retry_loop check jitter i (rem + 1)).result = true := by rw [hdef]
        have hchk : (retry_loop check jitter i (rem + 1)).checks = 1 := by rw [hdef]
        have hslp : (retry_loop check jitter i (rem + 1)).sleeps = [2 ^ i + jitter i] := by
          rw [hdef]
        refine ⟨?_, ?_, ?_, ?_⟩
        · rw [hchk]; omega
        · intro h; rw [hresv] at h; cases h
        · intro _
          rw [hchk]
          refine ⟨Nat.zero_lt_one, by simpa using hc, ?_⟩
          intro k hk1 hk2
          omega
        · rw [hslp, hchk]
          simp [List.range_succ]
      · have hcf : check (i + 1) = false := by
          cases h : check (i + 1) with
          | false => rfl
          | true => exact absurd h hc
        have ht := ih (i + 1)
        have hdef : retry_loop check jitter i (rem + 1) =
            ⟨(retry_loop check jitter (i + 1) rem).result,
             (retry_loop check jitter (i + 1) rem).checks + 1,
             (2 ^ i + jitter i) :: (retry_loop check jitter (i + 1) rem).sleeps⟩ := by
          simp [retry_loop, hcf]
        have hresv : (retry_loop check jitter i (rem + 1)).result =
            (retry_loop check jitter (i + 1) rem).result := by rw [hdef]
        have hchk : (retry_loop check jitter i (rem + 1)).checks =
            (retry_loop check jitter (i + 1) rem).checks + 1 := by rw [hdef]
        have hslp : (retry_loop check jitter i (rem + 1)).sleeps =
            (2 ^ i + jitter i) :: (retry_loop check jitter (i + 1) rem).sleeps := by rw [hdef]
        refine ⟨?_, ?_, ?_, ?_⟩
        · rw [hchk]
          exact Nat.succ_le_succ ht.1
        · intro hres
          rw [hresv] at hres
          have h2 := ht.2.1 hres
          rw [hchk]
          refine ⟨by rw [h2.1], ?_⟩
          intro k hk1 hk2
          by_cases hk : k = i + 1
          · subst hk; exact hcf
          · exact h2.2 k (by omega) (by omega)
        · intro hres
          rw [hresv] at hres
          have h3 := ht.2.2.1 hres
          rw [hchk]
          refine ⟨Nat.succ_pos _, ?_, ?_⟩
          · have := h3.2.1
            have harith : i + ((retry_loop check jitter (i + 1) rem).checks + 1) =
                i + 1 + (retry_loop check jitter (i + 1) rem).checks := by omega
            rw [harith]
            exact this
          · intro k hk1 hk2
            by_cases hk : k = i + 1
            · subst hk; exact hcf
            · refine h3.2.2 k (by omega) (by omega)
        · rw [hslp, hchk, ht.2.2.2, List.range_succ_eq_map]
          simp only [List.map_cons, List.map_map, Nat.add_zero, Function.comp]
          congr 1
          apply List.map_congr_left
          intro a _
          have h1 : i + 1 + a = i + (a + 1) := by omega
          simp only [Nat.succ_eq_add_one, h1]
          rfl

/-- C3: the retrying existence check is bounded.  For every per-attempt oracle
`check`, jitter sequence and retry budget `n`, `url_exists_with_retries`
performs between `1` and `n + 1` individual existence checks; it returns
`True` exactly when one of the checks numbered `0 .. n` succeeds, stopping at
the first success; it returns `False` only after all `n + 1` checks have
failed; and before the `i`-th retry it sleeps `2 ^ i` plus the random jitter
drawn for that retry. -/
theorem C3_retries_bounded (check : Nat → Bool) (jitter : Nat → ℚ) (n : Nat) :
    1 ≤ (url_exists_with_retries check jitter n).checks ∧
    (url_exists_with_retries check jitter n).checks ≤ n + 1 ∧
    ((url_exists_with_retries check jitter n).result = true ↔
      ∃ k, k ≤ n ∧ check k = true) ∧
    ((url_exists_with_retries check jitter n).result = true →
      check ((url_exists_with_retries check jitter n).checks - 1) = true ∧
      ∀ k, k < (url_exists_with_retries check jitter n).checks - 1 →
        check k = false) ∧
    ((url_exists_with_retries check jitter n).result = false →
      (url_exists_with_retries check jitter n).checks = n + 1 ∧
      ∀ k, k ≤ n → check k = false) ∧
    (url_exists_with_retries check jitter n).sleeps =
      (List.range ((url_exists_with_retries check jitter n).checks - 1)).map
        (fun i => 2 ^ i + jitter i) := by
  by_cases h0 : check 0 = true
  · have hdef : url_exists_with_retries check jitter n = ⟨true, 1, []⟩ := by
      simp [url_exists_with_retries, h0]
    have hresv : (url_exists_with_retries check jitter n).result = true := by rw [hdef]
    have hchk : (url_exists_with_retries check jitter n).checks = 1 := by rw [hdef]
    have hslp : (url_exists_with_retries check jitter n).sleeps = [] := by rw [hdef]
    rw [hresv, hchk, hslp]
    refine ⟨Nat.le_refl 1, by omega, ?_, ?_, ?_, by simp⟩
    · constructor
      · intro _; exact ⟨0, Nat.zero_le n, h0⟩
      · intro _; rfl
    · intro _
      refine ⟨by simpa using h0, ?_⟩
      intro k hk
      omega
    · intro h; cases h
  · have h0f : check 0 = false := by
      cases h : check 0 with
      | false => rfl
      | true => exact absurd h h0
    have hdef : url_exists_with_retries check jitter n =
        ⟨(retry_loop check jitter 0 n).result,
         (retry_loop check jitter 0 n).checks + 1,
         (retry_loop check jitter 0 n).sleeps⟩ := by
      simp [url_exists_with_retries, h0f]
    have hresv : (url_exists_with_retries check jitter n).result =
        (retry_loop check jitter 0 n).result := by rw [hdef]
    have hchk : (url_exists_with_retries check jitter n).checks =
        (retry_loop check jitter 0 n).checks + 1 := by rw [hdef]
    have hslp : (url_exists_with_retries check jitter n).sleeps =
        (retry_loop check jitter 0 n).sleeps := by rw [hdef]
    have hspec := retry_loop_spec check jitter n 0
    rw [hresv, hchk, hslp]
    refine ⟨by omega, by have := hspec.1; omega, ?_, ?_, ?_, ?_⟩
    · constructor
      · intro hres
        have h3 := hspec.2.2.1 hres
        refine ⟨(retry_loop check jitter 0 n).checks, ?_, ?_⟩
        · have := hspec.1; omega
        · simpa using h3.2.1
      · intro ⟨k, hk, hck⟩
        cases hres : (retry_loop check jitter 0 n).result with
        | true => rfl
        | false =>
            have h2 := hspec.2.1 hres
            by_cases hk0 : k = 0
            · subst hk0; rw [h0f] at hck; cases hck
            · have := h2.2 k (by omega) (by omega)
              rw [this] at hck; cases hck
    · intro hres
      have h3 := hspec.2.2.1 hres
      constructor
      · have harith : (retry_loop check jitter 0 n).checks + 1 - 1 =
            0 + (retry_loop check jitter 0 n).checks := by omega
        rw [harith]
        exact h3.2.1
      · intro k hk
        by_cases hk0 : k = 0
        · subst hk0; exact h0f
        · refine h3.2.2 k (by omega) (by omega)
    · intro hres
      have h2 := hspec.2.1 hres
      refine ⟨by rw [h2.1], ?_⟩
      intro k hk
      by_cases hk0 : k = 0
      · subst hk0; exact h0f
      · exact h2.2 k (by omega) (by omega)
    · rw [hspec.2.2.2]
      simp

/-- C3 witness: with an oracle that succeeds on the third check (`k = 2`) and a
budget of 5 retries, the retrying check returns `True`. -/
theorem C3_retries_bounded_witness :
    (url_exists_with_retries (fun k => decide (k = 2)) (fun _ => 0) 5).result = true := by
  exact (C3_retries_bounded (fun k => decide (k = 2)) (fun _ => 0) 5).2.2.1.mpr
    ⟨2, by decide, by decide⟩

/-! ### Dataframes and the generic tabular validator `validate_df` -/

/-- A pandas dataframe as the validation scripts read it
(`pd.read_csv(..., dtype=str, keep_default_na=False)`): a list of named
columns and, for each row, a map from column name to the cell's string
content. -/
structure DataFrame where
  columns : List String
  rows : List (String → String)

/-- `df[c]` as a list of cell values, in row order. -/
def columnValues (df : DataFrame) (c : String) : List String :=
  df.rows.map (fun r => r c)

/-- Embedding of Python `str.split(sep)` for a one-character separator, as
structural recursion over the character list (`"".split(";") == [""]`). -/
def splitCharsAux (sep : Char) : List Char → List Char → List (List Char)
  | [], acc => [acc.reverse]
  | c :: rest, acc =>
    if c = sep then acc.reverse :: splitCharsAux sep rest []
    else splitCharsAux sep rest (c :: acc)

/-- Python `x.split(sep)` for a one-character separator. -/
def pySplit (sep : Char) (s : String) : List String :=
  (splitCharsAux sep s.data []).map (fun l => String.mk l)

/-- Python `x.strip()`: remove leading and trailing whitespace. -/
def pyStrip (s : String) : String :=
  String.mk ((s.data.dropWhile Char.isWhitespace).reverse.dropWhile
    Char.isWhitespace).reverse

/-- Row-major flattening `df[cols].to_numpy().flatten()`. -/
def flattenCells (df : DataFrame) (cols : List String) : List String :=
  (df.rows.map (fun r => cols.map r)).flatten

/-- `[v.strip() for v in x.split(";") if v.strip() != ""]`. -/
def splitSemiClean (x : String) : List String :=
  ((pySplit ';' x).map pyStrip).filter (fun v => v ≠ "")

/-- `len(l) != len(set(l))`: the list contains a repeated element. -/
def hasDup {α : Type} [DecidableEq α] (l : List α) : Bool :=
  decide (¬ l.Nodup)

/-- Output stream of a Python `print` call. -/
inductive Channel : Type
  | stdout
  | stderr
deriving DecidableEq, Repr

/-- Result of running one of the validation functions: the value it returns
(`Except.error ()` models an uncaught Python exception) together with the
stream written to by each of its `print` calls, in order.  Only the stream of
each print is modelled, not the message text. -/
instance {ε α : Type} [DecidableEq ε] [DecidableEq α] : DecidableEq (Except ε α) :=
  fun a b =>
  match a, b with
  | Except.ok x, Except.ok y =>
      if h : x = y then isTrue (by rw [h])
      else isFalse (by intro hh; cases hh; exact h rfl)
  | Except.ok _, Except.error _ => isFalse (by intro hh; cases hh)
  | Except.error _, Except.ok _ => isFalse (by intro hh; cases hh)
  | Except.error x, Except.error y =>
      if h : x = y then isTrue (by rw [h])
      else isFalse (by intro hh; cases hh; exact h rfl)

structure VOut where
  code : Except Unit Nat
  log : List Channel
deriving DecidableEq

/-- The keyword configuration of `validate_df`.  The Python `None` defaults
are modelled by empty lists and empty association lists, which the code treats
identically to `None` (both are falsy). -/
structure DfConfig where
  data_required_column_names : List String
  data_optional_column_names : List String
  unique_single_value_columns : List String
  unique_multi_value_columns : List String
  url_columns : List String
  multi_url_columns : List String
  doi_columns : List String
  multi_doi_columns : List String
  column_is_in : List (String × List String)
  multi_value_column_is_in : List (String × List String)

/-- `set(required).intersection(set(optional))` is nonempty. -/
def requiredOptionalIntersect (cfg : DfConfig) : Bool :=
  cfg.data_required_column_names.any
    (fun c => cfg.data_optional_column_names.contains c)

/-- The union of required and optional column names (as the list whose set of
members is `data_required.union(data_optional)`). -/
def expectedColumnNames (cfg : DfConfig) : List String :=
  cfg.data_required_column_names ++ cfg.data_optional_column_names

/-- `actual_column_names.difference(expected_column_names)` as a list. -/
def unexpectedColumns (df : DataFrame) (cfg : DfConfig) : List String :=
  df.columns.filter (fun c => ¬ (expectedColumnNames cfg).contains c)

/-- `expected_column_names.difference(actual_column_names)` as a list. -/
def missingColumns (df : DataFrame) (cfg : DfConfig) : List String :=
  (expectedColumnNames cfg).filter (fun c => ¬ df.columns.contains c)

/-- Some cell of the dataframe differs from its stripped form
(`df.map(lambda x: x != x.strip())` has a `True` entry). -/
def hasLeadingTrailingWhitespace (df : DataFrame) : Bool :=
  df.rows.any (fun r => df.columns.any (fun c => r c ≠ pyStrip (r c)))

/-- Some required-data cell is the empty string. -/
def hasEmptyRequired (df : DataFrame) (cfg : DfConfig) : Bool :=
  df.rows.any (fun r => cfg.data_required_column_names.any (fun c => r c = ""))

/-- `duplicated_entries_single_value_columns`: the listed columns that contain
a duplicated value (the returned dictionary is nonempty exactly when this list
is nonempty). -/
def duplicated_entries_single_value_columns (df : DataFrame) (cols : List String) :
    List String :=
  cols.filter (fun c => hasDup (columnValues df c))

/-- One cell of a multi-value column contains the same semicolon-separated
value more than once (`len(current_data) != len(set(current_data))`). -/
def cellHasInternalDup (x : String) : Bool :=
  hasDup (splitSemiClean x)

/-- `duplicated_entries_multi_value_columns`.  BUG in the source: when a
listed column has a cell with a repeated semicolon-separated value, the code
evaluates `", ".join(problem_rows)` where `problem_rows` is a list of `int`s,
which raises `TypeError`; when no such cell exists it returns the empty
dictionary. -/
def duplicated_entries_multi_value_columns (df : DataFrame) (cols : List String) :
    Except Unit Unit :=
  if cols.any (fun c => (columnValues df c).any cellHasInternalDup) then Except.error ()
  else Except.ok ()

/-- `get_multi_column_data`: the set of unique data elements of the
single-value columns (cells whose stripped form is nonempty, kept unstripped)
together with the stripped nonempty semicolon-separated elements of the
multi-value columns. -/
def get_multi_column_data (df : DataFrame) (single multi : List String) :
    List String :=
  ((flattenCells df single).filter (fun d => pyStrip d ≠ "") ++
    ((flattenCells df multi).map splitSemiClean).flatten).dedup

/-- The URLs of the container that the existence oracle rejects
(`invalid_urls` / `invalid_dois`). -/
def invalidUrls (oracle : String → Bool) (urls : List String) : List String :=
  urls.filter (fun u => ¬ oracle u)

/-- The URL constructed for a DOI. -/
def doiUrl (doi : String) : String := "https://doi.org/" ++ doi

/-- Some cell of a `column_is_in` column is outside its allowed values. -/
def columnIsInViolation (df : DataFrame) (pairs : List (String × List String)) :
    Bool :=
  pairs.any (fun p => (columnValues df p.1).any (fun v => ¬ p.2.contains v))

/-- Some semicolon-separated element of a `multi_value_column_is_in` column is
outside its allowed values.  As in the source, the elements are not stripped;
empty strings (and the `NaN` padding of `str.split(";", expand=True)`) are
removed before the membership test. -/
def multiValueColumnIsInViolation (df : DataFrame)
    (pairs : List (String × List String)) : Bool :=
  pairs.any (fun p => (columnValues df p.1).any (fun x =>
    ((pySplit ';' x).filter (fun v => v ≠ "")).any (fun v => ¬ p.2.contains v)))

/-- The allowed-values checks at the end of `validate_df` (steps for
`column_is_in` and `multi_value_column_is_in`; each failing step prints two
messages to stderr). -/
def validate_df_value_checks (df : DataFrame) (cfg : DfConfig) : VOut :=
  if columnIsInViolation df cfg.column_is_in then
    ⟨Except.ok 1, [Channel.stderr, Channel.stderr]⟩
  else if multiValueColumnIsInViolation df cfg.multi_value_column_is_in then
    ⟨Except.ok 1, [Channel.stderr, Channel.stderr]⟩
  else ⟨Except.ok 0, []⟩

/-- The checks of `validate_df` that follow the column-name checks:
whitespace, required content, uniqueness (single- and multi-value), URL
existence, DOI existence, then the allowed-values checks.  `oracle u` is the
per-URL result of `check_urls`. -/
def validate_df_after_columns (oracle : String → Bool) (df : DataFrame)
    (cfg : DfConfig) : VOut :=
  if hasLeadingTrailingWhitespace df then ⟨Except.ok 1, [Channel.stderr]⟩
  else if hasEmptyRequired df cfg then ⟨Except.ok 1, [Channel.stderr]⟩
  else if duplicated_entries_single_value_columns df
      cfg.unique_single_value_columns ≠ [] then
    ⟨Except.ok 1, [Channel.stderr]⟩
  else
    match duplicated_entries_multi_value_columns df
        cfg.unique_multi_value_columns with
    | Except.error e => ⟨Except.error e, []⟩
    | Except.ok _ =>
      if invalidUrls oracle
          (get_multi_column_data df cfg.url_columns cfg.multi_url_columns) ≠ [] then
        ⟨Except.ok 1, [Channel.stderr]⟩
      else if invalidUrls (fun doi => oracle (doiUrl doi))
          (get_multi_column_data df cfg.doi_columns cfg.multi_doi_columns) ≠ [] then
        ⟨Except.ok 1, [Channel.stderr]⟩
      else validate_df_value_checks df cfg

/-- `validate_df`: configuration sanity check, column-name checks, then the
remaining checks. -/
def validate_df (oracle : String → Bool) (df : DataFrame) (cfg : DfConfig) : VOut :=
  if requiredOptionalIntersect cfg then ⟨Except.ok 1, [Channel.stderr]⟩
  else if unexpectedColumns df cfg ≠ [] then ⟨Except.ok 1, [Channel.stderr]⟩
  else if missingColumns df cfg ≠ [] then ⟨Except.ok 1, [Channel.stderr]⟩
  else validate_df_after_columns oracle df cfg

/-- The set of dataframe column names equals the union of the required and
optional column names. -/
def columnsMatch (df : DataFrame) (cfg : DfConfig) : Prop :=
  ∀ c : String, c ∈ df.columns ↔ c ∈ expectedColumnNames cfg

theorem columnsMatch_iff_no_diff (df : DataFrame) (cfg : DfConfig) :
    columnsMatch df cfg ↔
      unexpectedColumns df cfg = [] ∧ missingColumns df cfg = [] := by
  constructor
  · intro h
    constructor
    · rw [List.eq_nil_iff_forall_not_mem]
      intro c hc
      rw [unexpectedColumns, List.mem_filter] at hc
      have := (h c).mp hc.1
      simp at hc
      exact hc.2 this
    · rw [List.eq_nil_iff_forall_not_mem]
      intro c hc
      rw [missingColumns, List.mem_filter] at hc
      have := (h c).mpr hc.1
      simp at hc
      exact hc.2 this
  · intro ⟨h1, h2⟩ c
    constructor
    · intro hc
      by_contra hne
      have : c ∈ unexpectedColumns df cfg := by
        rw [unexpectedColumns, List.mem_filter]
        refine ⟨hc, ?_⟩
        simp [hne]
      rw [h1] at this
      cases this
    · intro hc
      by_contra hne
      have : c ∈ missingColumns df cfg := by
        rw [missingColumns, List.mem_filter]
        refine ⟨hc, ?_⟩
        simp [hne]
      rw [h2] at this
      cases this

/-- C4: the column-presence check.  For every existence oracle, dataframe and
configuration, `validate_df` returns `1` when the set of dataframe column
names differs from the union of the required and optional column names, and
it proceeds to the remaining checks exactly when the two sets are equal and
the configuration sanity check (required and optional columns disjoint)
passes. -/
theorem C4_column_presence (oracle : String → Bool) (df : DataFrame) (cfg : DfConfig) :
    (¬ columnsMatch df cfg → (validate_df oracle df cfg).code = Except.ok 1) ∧
    (columnsMatch df cfg → requiredOptionalIntersect cfg = false →
      validate_df oracle df cfg = validate_df_after_columns oracle df cfg) := by
  constructor
  · intro h
    rw [columnsMatch_iff_no_diff] at h
    unfold validate_df
    by_cases h1 : requiredOptionalIntersect cfg = true
    · simp [h1]
    · by_cases h2 : unexpectedColumns df cfg = []
      · have h3 : missingColumns df cfg ≠ [] := fun hm => h ⟨h2, hm⟩
        simp [h1, h2, h3]
      · simp [h1, h2]
  · intro h hio
    rw [columnsMatch_iff_no_diff] at h
    unfold validate_df
    simp [hio, h.1, h.2]

def c4_df_mismatch : DataFrame := ⟨["A", "B"], [fun _ => "x"]⟩

def c4_df_match : DataFrame := ⟨["A"], [fun _ => "x"]⟩

def c4_cfg : DfConfig := ⟨["A"], [], [], [], [], [], [], [], [], []⟩

/-- C4 witness: with an extra column `B` the validator returns `1`; with the
exactly matching column set it proceeds to the remaining checks. -/
theorem C4_column_presence_witness :
    (validate_df (fun _ => true) c4_df_mismatch c4_cfg).code = Except.ok 1 ∧
    validate_df (fun _ => true) c4_df_match c4_cfg =
      validate_df_after_columns (fun _ => true) c4_df_match c4_cfg := by
  constructor
  · refine (C4_column_presence (fun _ => true) c4_df_mismatch c4_cfg).1 ?_
    intro h
    have hb := (h "B").mp (by simp [c4_df_mismatch])
    simp [c4_cfg, expectedColumnNames] at hb
  · refine (C4_column_presence (fun _ => true) c4_df_match c4_cfg).2 ?_ (by decide)
    intro c
    simp [c4_df_match, c4_cfg, expectedColumnNames]

def c5_df : DataFrame := ⟨["A"], [fun _ => "x;x"]⟩

def c5_cfg : DfConfig := ⟨["A"], [], [], ["A"], [], [], [], [], [], []⟩

/-- C5 (code bug): on a dataframe whose unique-multi-value column `A` holds the
cell `"x;x"`, `validate_df` does not return `1`: the source evaluates
`", ".join(problem_rows)` on a list of `int`s and raises `TypeError`
(modelled by `Except.error ()`). -/
theorem C5_multi_value_dup_raises :
    (validate_df (fun _ => true) c5_df c5_cfg).code = Except.error () ∧
    duplicated_entries_multi_value_columns c5_df ["A"] = Except.error () := by
  exact ⟨by decide, by decide⟩

/-- C7: the DOI-resolution check.  When every check before it passes and the
allowed-values checks after it pass, `validate_df` returns `1` exactly when
one of the URLs `https://doi.org/{doi}` constructed from the set of unique
nonempty DOIs of the configured single- and multi-value DOI columns does not
exist according to the oracle. -/
theorem C7_doi_resolution (oracle : String → Bool) (df : DataFrame) (cfg : DfConfig)
    (h1 : requiredOptionalIntersect cfg = false)
    (h2 : unexpectedColumns df cfg = [])
    (h3 : missingColumns df cfg = [])
    (h4 : hasLeadingTrailingWhitespace df = false)
    (h5 : hasEmptyRequired df cfg = false)
    (h6 : duplicated_entries_single_value_columns df cfg.unique_single_value_columns = [])
    (h7 : duplicated_entries_multi_value_columns df cfg.unique_multi_value_columns =
      Except.ok ())
    (h8 : invalidUrls oracle
      (get_multi_column_data df cfg.url_columns cfg.multi_url_columns) = [])
    (h9 : columnIsInViolation df cfg.column_is_in = false)
    (h10 : multiValueColumnIsInViolation df cfg.multi_value_column_is_in = false) :
    ((validate_df oracle df cfg).code = Except.ok 1 ↔
      ∃ doi ∈ get_multi_column_data df cfg.doi_columns cfg.multi_doi_columns,
        oracle (doiUrl doi) = false) := by
  have hstep : validate_df oracle df cfg =
      (if invalidUrls (fun doi => oracle (doiUrl doi))
          (get_multi_column_data df cfg.doi_columns cfg.multi_doi_columns) ≠ [] then
        ⟨Except.ok 1, [Channel.stderr]⟩
      else validate_df_value_checks df cfg) := by
    unfold validate_df validate_df_after_columns
    simp [h1, h2, h3, h4, h5, h6, h7, h8]
  rw [hstep]
  have hval : validate_df_value_checks df cfg = ⟨Except.ok 0, []⟩ := by
    unfold validate_df_value_checks
    simp [h9, h10]
  by_cases hinv : invalidUrls (fun doi => oracle (doiUrl doi))
      (get_multi_column_data df cfg.doi_columns cfg.multi_doi_columns) = []
  · rw [if_neg (by simpa using hinv), hval]
    simp only [Except.ok.injEq]
    constructor
    · intro h; cases h
    · intro ⟨doi, hd, hdo⟩
      have : doi ∈ invalidUrls (fun doi => oracle (doiUrl doi))
          (get_multi_column_data df cfg.doi_columns cfg.multi_doi_columns) := by
        rw [invalidUrls, List.mem_filter]
        exact ⟨hd, by simp [hdo]⟩
      rw [hinv] at this
      cases this
  · rw [if_pos hinv]
    constructor
    · intro _
      obtain ⟨doi, hdoi⟩ := List.exists_mem_of_ne_nil _ hinv
      rw [invalidUrls, List.mem_filter] at hdoi
      refine ⟨doi, hdoi.1, ?_⟩
      have := hdoi.2
      simp at this
      exact this
    · intro _; rfl

def c7_df : DataFrame := ⟨["D"], [fun _ => "10.1/x"]⟩

def c7_cfg : DfConfig := ⟨["D"], [], [], [], [], [], ["D"], [], [], []⟩

def c7_oracle : String → Bool := fun u => decide (u ≠ "https://doi.org/10.1/x")

/-- C7 witness: a dataframe whose single DOI cell is `10.1/x` together with an
oracle that rejects exactly `https://doi.org/10.1/x` makes `validate_df`
return `1`. -/
theorem C7_doi_resolution_witness :
    (validate_df c7_oracle c7_df c7_cfg).code = Except.ok 1 := by
  refine (C7_doi_resolution c7_oracle c7_df c7_cfg (by decide) (by decide) (by decide)
    (by decide) (by decide) (by decide) (by decide) (by decide) (by decide)
    (by decide)).mpr ?_
  exact ⟨"10.1/x", by decide, by decide⟩

/-! ### The domain-grouped checker `validation_utilities.check_urls` -/

/-- `domain_groups[domain].append(url)` on an insertion-ordered association
list of domain groups (the behaviour of `defaultdict(list)`). -/
def addToGroup : List (String × List String) → String → String →
    List (String × List String)
  | [], d, u => [(d, [u])]
  | g :: gs, d, u =>
    if g.1 = d then (g.1, g.2 ++ [u]) :: gs else g :: addToGroup gs d u

/-- The grouping loop of `check_urls`: split the URLs by domain
(`urlparse(url).netloc`, modelled by `parse`); a URL whose parsing raises is
recorded separately (its entry in `results_dict` is set to `False`).  Returns
the domain groups and the failed URLs. -/
def domain_groups_aux (parse : String → Option String) :
    List (String × List String) → List String → List String →
      List (String × List String) × List String
  | gs, failed, [] => (gs, failed)
  | gs, failed, u :: rest =>
    match parse u with
    | some d => domain_groups_aux parse (addToGroup gs d u) failed rest
    | none => domain_groups_aux parse gs (failed ++ [u]) rest

def domain_groups (parse : String → Option String) (urls : List String) :
    List (String × List String) × List String :=
  domain_groups_aux parse [] [] urls

/-- `urls_exist_with_retries` over a list of URLs: one retry-loop result is
appended per URL, in order.  `check u k` is the outcome of the `k`-th
existence check for URL `u` and `jitter u i` the jitter drawn before its
`i`-th retry. -/
def urls_exist_with_retries_list (check : String → Nat → Bool)
    (jitter : String → Nat → ℚ) (retry_num : Nat) : List String → List Bool
  | [] => []
  | u :: rest =>
    (url_exists_with_retries (check u) (jitter u) retry_num).result ::
      urls_exist_with_retries_list check jitter retry_num rest

/-- `validation_utilities.check_urls`: group the URLs by domain, check each
group with `urls_exist_with_retries` (one thread and session per group),
collect the per-URL results in `results_dict`, and return
`[results_dict[url] for url in urls_container]`. -/
def check_urls (parse : String → Option String) (check : String → Nat → Bool)
    (jitter : String → Nat → ℚ) (retry_num : Nat) (urls : List String) :
    List Bool :=
  let gf := domain_groups parse urls
  let dict : List (String × Bool) :=
    gf.2.map (fun u => (u, false)) ++
      (gf.1.map (fun g =>
        g.2.zip (urls_exist_with_retries_list check jitter retry_num g.2))).flatten
  urls.map (fun u => (dict.lookup u).getD false)

/-- The per-URL result `check_urls` is expected to report: `False` when the
URL does not parse, and otherwise the retrying existence check's result for
that URL. -/
def check_urls_expected (parse : String → Option String)
    (check : String → Nat → Bool) (jitter : String → Nat → ℚ)
    (retry_num : Nat) (u : String) : Bool :=
  match parse u with
  | none => false
  | some _ => (url_exists_with_retries (check u) (jitter u) retry_num).result

theorem urls_exist_with_retries_list_eq_map (check : String → Nat → Bool)
    (jitter : String → Nat → ℚ) (retry_num : Nat) (us : List String) :
    urls_exist_with_retries_list check jitter retry_num us =
      us.map (fun u => (url_exists_with_retries (check u) (jitter u) retry_num).result) := by
  induction us with
  | nil => rfl
  | cons u rest ih => simp [urls_exist_with_retries_list, ih]

theorem zip_self_map {α β : Type} (f : α → β) (l : List α) :
    l.zip (l.map f) = l.map (fun u => (u, f u)) := by
  induction l with
  | nil => rfl
  | cons u rest ih => simp [ih]

/-- Well-formedness of a group list: every URL stored in a group parses to
that group's domain. -/
def GroupsWF (parse : String → Option String)
    (gs : List (String × List String)) : Prop :=
  ∀ g ∈ gs, ∀ u ∈ g.2, parse u = some g.1

/-- A URL is stored in one of the groups. -/
def InGroups (gs : List (String × List String)) (u : String) : Prop :=
  ∃ g ∈ gs, u ∈ g.2

theorem addToGroup_wf {parse : String → Option String}
    {gs : List (String × List String)} {d u : String}
    (hwf : GroupsWF parse gs) (hu : parse u = some d) :
    GroupsWF parse (addToGroup gs d u) := by
  induction gs with
  | nil =>
      intro g hg x hx
      simp [addToGroup] at hg
      subst hg
      simp at hx
      subst hx
      exact hu
  | cons g0 gs ih =>
      intro g hg x hx
      rw [addToGroup] at hg
      by_cases hd : g0.1 = d
      · rw [if_pos hd] at hg
        rcases List.mem_cons.mp hg with hg | hg
        · subst hg
          simp at hx
          rcases hx with hx | hx
          · exact hwf g0 (List.mem_cons_self g0 gs) x hx
          · subst hx; rw [hu, hd]
        · exact hwf g (List.mem_cons_of_mem g0 hg) x hx
      · rw [if_neg hd] at hg
        rcases List.mem_cons.mp hg with hg | hg
        · subst hg
          exact hwf g (List.mem_cons_self g gs) x hx
        · exact ih (fun g2 hg2 => hwf g2 (List.mem_cons_of_mem g0 hg2)) g hg x hx

theorem addToGroup_mem (gs : List (String × List String)) (d u : String) :
    InGroups (addToGroup gs d u) u := by
  induction gs with
  | nil => exact ⟨(d, [u]), by simp [addToGroup], by simp⟩
  | cons g0 gs ih =>
      rw [addToGroup]
      by_cases hd : g0.1 = d
      · rw [if_pos hd]
        exact ⟨(g0.1, g0.2 ++ [u]), List.mem_cons_self _ _, by simp⟩
      · rw [if_neg hd]
        obtain ⟨g, hg, hu⟩ := ih
        exact ⟨g, List.mem_cons_of_mem g0 hg, hu⟩

theorem addToGroup_mem_mono {gs : List (String × List String)} {x : String}
    (d u : String) (hx : InGroups gs x) : InGroups (addToGroup gs d u) x := by
  induction gs with
  | nil => rcases hx with ⟨g, hg, _⟩; cases hg
  | cons g0 gs ih =>
      rw [addToGroup]
      obtain ⟨g, hg, hgx⟩ := hx
      by_cases hd : g0.1 = d
      · rw [if_pos hd]
        rcases List.mem_cons.mp hg with hg | hg
        · subst hg
          exact ⟨(g.1, g.2 ++ [u]), List.mem_cons_self _ _, by simp [hgx]⟩
        · exact ⟨g, List.mem_cons_of_mem _ hg, hgx⟩
      · rw [if_neg hd]
        rcases List.mem_cons.mp hg with hg | hg
        · subst hg
          exact ⟨g, List.mem_cons_self g _, hgx⟩
        · obtain ⟨g2, hg2, hg2x⟩ := ih ⟨g, hg, hgx⟩
          exact ⟨g2, List.mem_cons_of_mem g0 hg2, hg2x⟩

theorem domain_groups_aux_spec (parse : String → Option String) :
    ∀ (rest : List String) (gs : List (String × List String)) (failed : List String),
      GroupsWF parse gs →
      (∀ x ∈ failed, parse x = none) →
      GroupsWF parse (domain_groups_aux parse gs failed rest).1 ∧
      (∀ x ∈ (domain_groups_aux parse gs failed rest).2, parse x = none) ∧
      (∀ x ∈ failed, x ∈ (domain_groups_aux parse gs failed rest).2) ∧
      (∀ x, InGroups gs x → InGroups (domain_groups_aux parse gs failed rest).1 x) ∧
      (∀ x ∈ rest,
        (parse x = none → x ∈ (domain_groups_aux parse gs failed rest).2) ∧
        (parse x ≠ none → InGroups (domain_groups_aux parse gs failed rest).1 x)) := by
  intro rest
  induction rest with
  | nil =>
      intro gs failed hwf hfail
      exact ⟨hwf, hfail, fun x hx => hx, fun x hx => hx, fun x hx => by cases hx⟩
  | cons u rest ih =>
      intro gs failed hwf hfail
      cases hp : parse u with
      | some d =>
          have hstep : domain_groups_aux parse gs failed (u :: rest) =
              domain_groups_aux parse (addToGroup gs d u) failed rest := by
            simp [domain_groups_aux, hp]
          rw [hstep]
          have hres := ih (addToGroup gs d u) failed (addToGroup_wf hwf hp) hfail
          refine ⟨hres.1, hres.2.1, hres.2.2.1, ?_, ?_⟩
          · intro x hx
            exact hres.2.2.2.1 x (addToGroup_mem_mono d u hx)
          · intro x hx
            rcases List.mem_cons.mp hx with hx | hx
            · subst hx
              constructor
              · intro hnone
                rw [hp] at hnone
                cases hnone
              · intro _
                exact hres.2.2.2.1 x (addToGroup_mem gs d x)
            · exact hres.2.2.2.2 x hx
      | none =>
          have hstep : domain_groups_aux parse gs failed (u :: rest) =
              domain_groups_aux parse gs (failed ++ [u]) rest := by
            simp [domain_groups_aux, hp]
          rw [hstep]
          have hfail2 : ∀ x ∈ failed ++ [u], parse x = none := by
            intro x hx
            rcases List.mem_append.mp hx with hx | hx
            · exact hfail x hx
            · simp at hx; subst hx; exact hp
          have hres := ih gs (failed ++ [u]) hwf hfail2
          refine ⟨hres.1, hres.2.1, ?_, hres.2.2.2.1, ?_⟩
          · intro x hx
            exact hres.2.2.1 x (List.mem_append.mpr (Or.inl hx))
          · intro x hx
            rcases List.mem_cons.mp hx with hx | hx
            · subst hx
              constructor
              · intro _
                exact hres.2.2.1 x (List.mem_append.mpr (Or.inr (by simp)))
              · intro hne
                exact absurd hp hne
            · exact hres.2.2.2.2 x hx

theorem lookup_eq_of_entries {β : Type} (f : String → β) :
    ∀ (dict : List (String × β)),
      (∀ p ∈ dict, p.2 = f p.1) →
      ∀ u : String, (∃ p ∈ dict, p.1 = u) → dict.lookup u = some (f u) := by
  intro dict
  induction dict with
  | nil =>
      intro _ u hu
      rcases hu with ⟨p, hp, _⟩
      cases hp
  | cons kv rest ih =>
      intro hall u hu
      by_cases hk : kv.1 = u
      · have : List.lookup u (kv :: rest) = some kv.2 := by
          simp [List.lookup, hk.symm]
        rw [this, hall kv (List.mem_cons_self kv rest), hk]
      · have hne : (u == kv.1) = false := by
          simp
          intro h; exact hk h.symm
        have : List.lookup u (kv :: rest) = List.lookup u rest := by
          simp [List.lookup, hne]
        rw [this]
        refine ih (fun p hp => hall p (List.mem_cons_of_mem kv hp)) u ?_
        rcases hu with ⟨p, hp, hpu⟩
        rcases List.mem_cons.mp hp with hp | hp
        · subst hp; exact absurd hpu hk
        · exact ⟨p, hp, hpu⟩

/-- C8: order and length preservation of the domain-grouped checker.  For
every parsing function, per-attempt oracle, jitter and retry budget,
`check_urls` returns exactly one boolean per URL of the container, in the
container's order: the result for a URL is `False` when its parsing fails and
otherwise the result of the retrying existence check for that URL -- the
domain grouping does not change which result is associated with which URL. -/
theorem C8_check_urls_order (parse : String → Option String)
    (check : String → Nat → Bool) (jitter : String → Nat → ℚ)
    (retry_num : Nat) (urls : List String) :
    check_urls parse check jitter retry_num urls =
      urls.map (check_urls_expected parse check jitter retry_num) ∧
    (check_urls parse check jitter retry_num urls).length = urls.length := by
  have hspec := domain_groups_aux_spec parse urls [] []
    (fun g hg => by cases hg) (fun x hx => by cases hx)
  rw [show domain_groups_aux parse [] [] urls = domain_groups parse urls from rfl]
    at hspec
  have hmain : check_urls parse check jitter retry_num urls =
      urls.map (check_urls_expected parse check jitter retry_num) := by
    unfold check_urls
    apply List.map_congr_left
    intro u hu
    have hentries : ∀ p ∈ (domain_groups parse urls).2.map (fun u => (u, false)) ++
        ((domain_groups parse urls).1.map (fun g =>
          g.2.zip (urls_exist_with_retries_list check jitter retry_num g.2))).flatten,
        p.2 = check_urls_expected parse check jitter retry_num p.1 := by
      intro p hp
      rcases List.mem_append.mp hp with hp | hp
      · rw [List.mem_map] at hp
        obtain ⟨x, hx, hxp⟩ := hp
        subst hxp
        have := hspec.2.1 x hx
        simp [check_urls_expected, this]
      · rw [List.mem_flatten] at hp
        obtain ⟨l, hl, hpl⟩ := hp
        rw [List.mem_map] at hl
        obtain ⟨g, hg, hgl⟩ := hl
        subst hgl
        rw [urls_exist_with_retries_list_eq_map, zip_self_map] at hpl
        rw [List.mem_map] at hpl
        obtain ⟨x, hx, hxp⟩ := hpl
        subst hxp
        have := hspec.1 g hg x hx
        simp [check_urls_expected, this]
    have hcover : ∃ p ∈ (domain_groups parse urls).2.map (fun u => (u, false)) ++
        ((domain_groups parse urls).1.map (fun g =>
          g.2.zip (urls_exist_with_retries_list check jitter retry_num g.2))).flatten,
        p.1 = u := by
      cases hp : parse u with
      | none =>
          have : u ∈ (domain_groups parse urls).2 := (hspec.2.2.2.2 u hu).1 hp
          exact ⟨(u, false), List.mem_append.mpr
            (Or.inl (List.mem_map.mpr ⟨u, this, rfl⟩)), rfl⟩
      | some d =>
          have : InGroups (domain_groups parse urls).1 u :=
            (hspec.2.2.2.2 u hu).2 (by rw [hp]; intro h; cases h)
          obtain ⟨g, hg, hgu⟩ := this
          refine ⟨(u, (url_exists_with_retries (check u) (jitter u) retry_num).result),
            List.mem_append.mpr (Or.inr ?_), rfl⟩
          rw [List.mem_flatten]
          refine ⟨g.2.zip (urls_exist_with_retries_list check jitter retry_num g.2),
            List.mem_map.mpr ⟨g, hg, rfl⟩, ?_⟩
          rw [urls_exist_with_retries_list_eq_map, zip_self_map, List.mem_map]
          exact ⟨u, hgu, rfl⟩
    rw [lookup_eq_of_entries _ _ hentries u hcover]
    rfl
  exact ⟨hmain, by rw [hmain]; simp⟩

/-! ### `validate_zenodo_json` -/

/-- Python string comparison (`<=` on `str`): lexicographic comparison of the
code-point sequences. -/
def pyCharsLe : List Char → List Char → Bool
  | [], _ => true
  | _ :: _, [] => false
  | a :: as, b :: bs =>
    if a < b then true else if b < a then false else pyCharsLe as bs

/-- Python `a <= b` on strings. -/
def pyStrLe (a b : String) : Bool := pyCharsLe a.data b.data

theorem pyCharsLe_trans : ∀ a b c : List Char,
    pyCharsLe a b = true → pyCharsLe b c = true → pyCharsLe a c = true := by
  intro a
  induction a with
  | nil => intro b c _ _; rfl
  | cons x xs ih =>
      intro b c hab hbc
      cases b with
      | nil => rw [pyCharsLe] at hab; cases hab
      | cons y ys =>
          cases c with
          | nil => rw [pyCharsLe] at hbc; cases hbc
          | cons z zs =>
              rw [pyCharsLe] at hab hbc ⊢
              by_cases hxy : x < y
              · rw [if_pos hxy] at hab
                by_cases hyz : y < z
                · rw [if_pos (lt_trans hxy hyz)]
                · rw [if_neg hyz] at hbc
                  by_cases hzy : z < y
                  · rw [if_pos hzy] at hbc; cases hbc
                  · have hyzeq : y = z := le_antisymm (not_lt.mp hzy) (not_lt.mp hyz)
                    subst hyzeq
                    rw [if_pos hxy]
              · rw [if_neg hxy] at hab
                by_cases hyx : y < x
                · rw [if_pos hyx] at hab; cases hab
                · have hxyeq : x = y := le_antisymm (not_lt.mp hyx) (not_lt.mp hxy)
                  subst hxyeq
                  rw [if_neg hxy] at hab
                  by_cases hyz : x < z
                  · rw [if_pos hyz]
                  · rw [if_neg hyz] at hbc ⊢
                    by_cases hzy : z < x
                    · rw [if_pos hzy] at hbc; cases hbc
                    · rw [if_neg hzy] at hbc
                      rw [if_neg hzy]
                      exact ih ys zs hab hbc

theorem pyCharsLe_total : ∀ a b : List Char,
    pyCharsLe a b = true ∨ pyCharsLe b a = true := by
  intro a
  induction a with
  | nil => intro b; left; rfl
  | cons x xs ih =>
      intro b
      cases b with
      | nil => right; rfl
      | cons y ys =>
          rw [pyCharsLe, pyCharsLe]
          by_cases hxy : x < y
          · left; rw [if_pos hxy]
          · by_cases hyx : y < x
            · right; rw [if_pos hyx]
            · have hxyeq : x = y := le_antisymm (not_lt.mp hyx) (not_lt.mp hxy)
              subst hxyeq
              rw [if_neg hxy, if_neg hxy, if_neg hxy, if_neg hxy]
              exact ih ys

/-- One entry of the `creators` list of `.zenodo.json`: the three fields the
validator reads.  A field that is absent from the creator's dictionary is
`none`. -/
structure Creator where
  affiliation : Option String
  name : Option String
  orcid : Option String
deriving DecidableEq

/-- One entry of the `grants` list. -/
structure Grant where
  id : String
deriving DecidableEq

/-- The parsed `.zenodo.json` content that `validate_zenodo_json` examines.
`keysMatch` models `zenodo_dict.keys() == expected keys` and `typesMatch` the
per-key type check; the JSON reflection itself is outside the embedding. -/
structure ZenodoDict where
  keysMatch : Bool
  typesMatch : Bool
  creators : List Creator
  grants : List Grant
deriving DecidableEq

/-- `data["orcid"]` (defined when the required-information check passed). -/
def creatorOrcid (c : Creator) : String := c.orcid.getD ""

/-- `data["name"]` (defined when the required-information check passed). -/
def creatorName (c : Creator) : String := c.name.getD ""

/-- The required-information check for one creator: a required key is missing,
or one of the three fields strips to the empty string. -/
def creatorMissingInfo (c : Creator) : Bool :=
  match c.affiliation, c.name, c.orcid with
  | some a, some n, some o =>
      pyStrip a = "" ∨ pyStrip n = "" ∨ pyStrip o = ""
  | _, _, _ => true

/-- The sort key of the creators order check:
`sorted(key=lambda creator_entry: creator_entry["name"])`. -/
def nameLe (a b : Creator) : Prop :=
  pyStrLe (creatorName a) (creatorName b) = true

instance : DecidableRel nameLe := fun a b => by
  unfold nameLe
  infer_instance

instance : IsTotal Creator nameLe :=
  ⟨fun a b => pyCharsLe_total (creatorName a).data (creatorName b).data⟩

instance : IsTrans Creator nameLe :=
  ⟨fun a b c => pyCharsLe_trans (creatorName a).data (creatorName b).data
    (creatorName c).data⟩

/-- `creators[1:-2]`. -/
def middleCreators (l : List Creator) : List Creator :=
  ((l.drop 1).dropLast).dropLast

def fixedFirstOrcid : String := "0000-0003-0315-7727"

def fixedLastOrcid : String := "0000-0003-4379-8967"

def fixedSecondToLastOrcid : String := "0000-0003-1495-9143"

/-- The creators order check of `validate_zenodo_json`
(`creators[0]["orcid"] != ... or creators[-1]["orcid"] != ... or
creators[-2]["orcid"] != ... or creators[1:-2] != sorted(creators[1:-2])`).
On the empty list Python raises `IndexError` when evaluating `creators[0]`;
the caller handles that case, so the `[]` branch here is unreachable.  For a
one-element list Python's short-circuit `or` never evaluates `creators[-2]`
(the first two disjuncts cannot both be false), so the `getD c0` default never
influences a reachable result.  `sorted` is stable, which
`List.insertionSort` mirrors. -/
def order_violated : List Creator → Bool
  | [] => true
  | c0 :: rest =>
    decide (creatorOrcid c0 ≠ fixedFirstOrcid) ||
      decide (creatorOrcid ((c0 :: rest).getLast (List.cons_ne_nil c0 rest)) ≠
        fixedLastOrcid) ||
      decide (creatorOrcid (((c0 :: rest)[(c0 :: rest).length - 2]?).getD c0) ≠
        fixedSecondToLastOrcid) ||
      decide (middleCreators (c0 :: rest) ≠
        List.insertionSort nameLe (middleCreators (c0 :: rest)))

/-- The URL checked for each creator's ORCID. -/
def orcidUrl (orcid : String) : String := "https://orcid.org/" ++ orcid

/-- `validate_zenodo_json`: key and type checks, creator required-information
check, creator-ORCID uniqueness, ORCID URL existence (via `check_urls` of
`url_exists.py`, abstracted by `orcidOracle`), the creators order check, and
the grants checks.  All its failure messages are printed to stdout (plain
`print`).  With an empty creators list the order check raises `IndexError`
(modelled as `Except.error ()`). -/
def validate_zenodo_json (orcidOracle : String → Bool) (z : ZenodoDict) : VOut :=
  if z.keysMatch = false then ⟨Except.ok 1, [Channel.stdout]⟩
  else if z.typesMatch = false then ⟨Except.ok 1, [Channel.stdout]⟩
  else if z.creators.any creatorMissingInfo then ⟨Except.ok 1, [Channel.stdout]⟩
  else if hasDup (z.creators.map creatorOrcid) then ⟨Except.ok 1, [Channel.stdout]⟩
  else if z.creators.any (fun c => ¬ orcidOracle (orcidUrl (creatorOrcid c))) then
    ⟨Except.ok 1, [Channel.stdout, Channel.stdout]⟩
  else
    match z.creators with
    | [] => ⟨Except.error (), []⟩
    | c0 :: rest =>
      if order_violated (c0 :: rest) then ⟨Except.ok 1, [Channel.stdout]⟩
      else if z.grants.any (fun g => pyStrip g.id = "") then
        ⟨Except.ok 1, [Channel.stdout]⟩
      else if hasDup (z.grants.map Grant.id) then ⟨Except.ok 1, [Channel.stdout]⟩
      else ⟨Except.ok 0, []⟩

/-- The contributor order the claim describes: fixed first and last two
ORCIDs, and the creators in between sorted in ascending order of their name
field. -/
def zenodoOrderOk (l : List Creator) : Prop :=
  l.head?.map creatorOrcid = some fixedFirstOrcid ∧
  l.getLast?.map creatorOrcid = some fixedLastOrcid ∧
  (l[l.length - 2]?).map creatorOrcid = some fixedSecondToLastOrcid ∧
  List.Chain' nameLe (middleCreators l)

theorem insertionSort_fixpoint_iff (l : List Creator) :
    l = List.insertionSort nameLe l ↔ List.Chain' nameLe l := by
  rw [List.chain'_iff_pairwise]
  constructor
  · intro h
    have hs : List.Sorted nameLe (List.insertionSort nameLe l) :=
      List.sorted_insertionSort nameLe l
    rw [← h] at hs
    exact hs
  · intro h
    exact (List.Sorted.insertionSort_eq h).symm

theorem order_violated_false_iff (l : List Creator) (h : l ≠ []) :
    order_violated l = false ↔ zenodoOrderOk l := by
  cases l with
  | nil => exact absurd rfl h
  | cons c0 rest =>
      rw [order_violated]
      simp only [Bool.or_eq_false_iff, decide_eq_false_iff_not, not_not]
      constructor
      · intro ⟨⟨⟨h1, h2⟩, h3⟩, h4⟩
        refine ⟨by simp [h1], ?_, ?_, ?_⟩
        · rw [List.getLast?_eq_getLast (c0 :: rest) (List.cons_ne_nil c0 rest)]
          simp [h2]
        · have hlt : (c0 :: rest).length - 2 < (c0 :: rest).length := by
            simp
            omega
          rw [List.getElem?_eq_getElem hlt]
          rw [List.getElem?_eq_getElem hlt] at h3
          simp at h3 ⊢
          exact h3
        · exact (insertionSort_fixpoint_iff (middleCreators (c0 :: rest))).mp h4
      · intro ⟨h1, h2, h3, h4⟩
        have hlt : (c0 :: rest).length - 2 < (c0 :: rest).length := by
          simp
          omega
        refine ⟨⟨⟨?_, ?_⟩, ?_⟩, ?_⟩
        · simp at h1
          exact h1
        · rw [List.getLast?_eq_getLast (c0 :: rest) (List.cons_ne_nil c0 rest)] at h2
          simp at h2
          exact h2
        · rw [List.getElem?_eq_getElem hlt] at h3 ⊢
          simp at h3 ⊢
          exact h3
        · exact (insertionSort_fixpoint_iff (middleCreators (c0 :: rest))).mpr h4

def c9_empty_creators : ZenodoDict := ⟨true, true, [], []⟩

/-- C9 counterexample: with well-formed keys and types but an empty creators
list, the required contributor order does not hold, yet `validate_zenodo_json`
does not return `1`: evaluating `creators[0]` raises `IndexError`. -/
theorem C9_counterexample :
    (validate_zenodo_json (fun _ => true) c9_empty_creators).code = Except.error () ∧
    ¬ zenodoOrderOk ([] : List Creator) := by
  constructor
  · rfl
  · intro ⟨h1, _⟩
    cases h1

/-- C9 (amended): for a nonempty creators list, `validate_zenodo_json` returns
`0` only if the order check passes; whenever the order check fails it returns
`1`; and the order check passes exactly when the first creator's ORCID is
0000-0003-0315-7727, the last is 0000-0003-4379-8967, the second-to-last is
0000-0003-1495-9143, and the creators strictly between the first and the last
two are sorted in ascending order of their name field.  (With an empty
creators list the function raises `IndexError` instead of returning.) -/
theorem C9_zenodo_order (oracle : String → Bool) (z : ZenodoDict)
    (h : z.creators ≠ []) :
    ((validate_zenodo_json oracle z).code = Except.ok 0 →
      order_violated z.creators = false) ∧
    (order_violated z.creators = true →
      (validate_zenodo_json oracle z).code = Except.ok 1) ∧
    (order_violated z.creators = false ↔ zenodoOrderOk z.creators) := by
  obtain ⟨km, tm, cr, gr⟩ := z
  simp only at h
  cases cr with
  | nil => exact absurd rfl h
  | cons c0 rest =>
      refine ⟨?_, ?_, order_violated_false_iff (c0 :: rest) (List.cons_ne_nil c0 rest)⟩
      · intro h0
        simp only [validate_zenodo_json] at h0
        split_ifs at h0 with h1 h2 h3 h4 h5 h6 h7 h8
        all_goals simp_all
      · intro hov
        simp only [validate_zenodo_json]
        split_ifs with h1 h2 h3 h4 h5
        all_goals rfl

def c9_bad_order : ZenodoDict :=
  ⟨true, true, [⟨some "Aff", some "Name", some "0000-0000-0000-0001"⟩], []⟩

/-- C9 witness: a single creator whose ORCID differs from the fixed first
ORCID violates the order, and `validate_zenodo_json` returns `1`. -/
theorem C9_zenodo_order_witness :
    (validate_zenodo_json (fun _ => true) c9_bad_order).code = Except.ok 1 :=
  (C9_zenodo_order (fun _ => true) c9_bad_order (by decide)).2.1 (by decide)

/-! ### `validate_bib_file_data` -/

/-- One entry parsed by `bibtexparser`: the citation key (stored by
`bibtexparser` under the dictionary key `"ID"`, always present) and the full
list of the entry dictionary's keys. -/
structure BibEntry where
  id : String
  fieldKeys : List String
deriving DecidableEq

/-- The result of `bibtexparser.load`: comments (which hold the syntactically
malformed entries under bibtexparser v1) and the well-formed entries. -/
structure BibDatabase where
  comments : List String
  entries : List BibEntry
deriving DecidableEq

/-- The required bibtex keys, lowercase. -/
def requiredEntryKeys : List String :=
  ["id", "author", "title", "year", "doi", "note"]

/-- Python `str.casefold()`, modelled as character-wise lowercasing (the two
agree on the ASCII keys this code compares). -/
def pyCasefold (s : String) : String := String.mk (s.data.map Char.toLower)

/-- `not required_entry_keys.issubset({k.casefold() for k in entry.keys()})`. -/
def entryMissingRequired (e : BibEntry) : Bool :=
  ¬ requiredEntryKeys.all (fun k => (e.fieldKeys.map pyCasefold).contains k)

/-- `validate_bib_file_data`: malformed-entry check (comments nonempty), the
per-entry required-fields check (which returns at the first offending entry,
before the duplicate count is finished), then the duplicate-citation-key
check.  All failure messages go to stderr. -/
def validate_bib_file_data (b : BibDatabase) : VOut :=
  if b.comments ≠ [] then ⟨Except.ok 1, [Channel.stderr]⟩
  else if b.entries.any entryMissingRequired then ⟨Except.ok 1, [Channel.stderr]⟩
  else if hasDup (b.entries.map BibEntry.id) then ⟨Except.ok 1, [Channel.stderr]⟩
  else ⟨Except.ok 0, []⟩

/-! ### The reagent-resources-specific checks of `validate_reagent_resources` -/

/-- The columns dropped before the repeated-rows check. -/
def reagentDroppedColumns : List String := ["Contributor", "Agree", "Disagree"]

/-- One row of `raw_df = df.drop(["Contributor", "Agree", "Disagree"], axis=1)`,
as the list of its cell values in column order. -/
def rawRowKey (df : DataFrame) (r : String → String) : List String :=
  (df.columns.filter (fun c => ¬ reagentDroppedColumns.contains c)).map r

/-- `raw_df.duplicated(keep=False)` is nonempty: two rows agree on every
non-dropped column. -/
def hasDuplicateRawRows (df : DataFrame) : Bool :=
  hasDup (df.rows.map (rawRowKey df))

/-- `[v.strip() for v in x.split(";") if v.strip() not in ["", "NA"]]`. -/
def orcidEntries (x : String) : List String :=
  ((pySplit ';' x).map pyStrip).filter (fun v => ¬ (v = "" ∨ v = "NA"))

/-- The cleaned `Agree` cell of a row. -/
def agreeEntries (r : String → String) : List String := orcidEntries (r "Agree")

/-- The cleaned `Disagree` cell of a row. -/
def disagreeEntries (r : String → String) : List String :=
  orcidEntries (r "Disagree")

/-- `not (x.iloc[0] in x.iloc[1] + x.iloc[2])`: the contributor's ORCID is in
neither the `Agree` nor the `Disagree` list. -/
def contributorViolation (r : String → String) : Bool :=
  ¬ (agreeEntries r ++ disagreeEntries r).contains (r "Contributor")

/-- `len(agree) > MAX_ORCID_ENTRIES or len(disagree) > MAX_ORCID_ENTRIES`
with `MAX_ORCID_ENTRIES = 5`. -/
def maxOrcidViolation (r : String → String) : Bool :=
  decide (5 < (agreeEntries r).length) || decide (5 < (disagreeEntries r).length)

/-- `set(agree).intersection(disagree)` is nonempty. -/
def agreeDisagreeOverlap (r : String → String) : Bool :=
  (agreeEntries r).any (fun v => (disagreeEntries r).contains v)

/-- The checks of `validate_reagent_resources` after the ORCID-count check:
the agree/disagree overlap check, the supporting-material consistency check
(file-system dependent, abstracted by `supportOk`), and the
superfluous-markdown-files check (abstracted by `noSuperfluous`).  All these
failure messages are plain `print`s to stdout. -/
def reagent_rest (df : DataFrame) (supportOk noSuperfluous : Bool)
    (baseLog : List Channel) : VOut :=
  if df.rows.any agreeDisagreeOverlap then
    ⟨Except.ok 1, baseLog ++ [Channel.stdout]⟩
  else if supportOk = false then ⟨Except.ok 1, baseLog ++ [Channel.stdout]⟩
  else if noSuperfluous = false then ⟨Except.ok 1, baseLog ++ [Channel.stdout]⟩
  else ⟨Except.ok 0, baseLog⟩

/-- `validate_reagent_resources` from the point where `validate_df` has run:
`basic` is the result of the basic validation (performed by the `validate_df`
of the `.utilities` module, which this snapshot does not contain; it is
abstracted as an arbitrary result).  `if res != 0: return res`, then the
repeated-rows check, the contributor-in-agree-or-disagree check, the
ORCID-count cap, and the remaining checks.  The reagent-specific failure
messages are plain `print`s to stdout. -/
def validate_reagent_resources (basic : VOut) (df : DataFrame)
    (supportOk noSuperfluous : Bool) : VOut :=
  match basic.code with
  | Except.error e => ⟨Except.error e, basic.log⟩
  | Except.ok n =>
    if n ≠ 0 then ⟨Except.ok n, basic.log⟩
    else if hasDuplicateRawRows df then ⟨Except.ok 1, basic.log ++ [Channel.stdout]⟩
    else if df.rows.any contributorViolation then
      ⟨Except.ok 1, basic.log ++ [Channel.stdout]⟩
    else if df.rows.any maxOrcidViolation then
      ⟨Except.ok 1, basic.log ++ [Channel.stdout]⟩
    else reagent_rest df supportOk noSuperfluous basic.log

/-- C10: the hard cap of 5 ORCIDs per `Agree`/`Disagree` cell.  When the basic
validation has passed and the repeated-rows and contributor checks pass,
`validate_reagent_resources` returns `1` as soon as some row has more than 5
nonempty non-NA semicolon-separated entries in its `Agree` or `Disagree`
cell, and when every row has at most 5 entries in both columns the check
passes and the run continues with the remaining checks. -/
theorem C10_max_orcid_cap (basic : VOut) (df : DataFrame)
    (supportOk noSuperfluous : Bool)
    (h0 : basic.code = Except.ok 0)
    (h1 : hasDuplicateRawRows df = false)
    (h2 : df.rows.any contributorViolation = false) :
    (df.rows.any maxOrcidViolation = true →
      (validate_reagent_resources basic df supportOk noSuperfluous).code =
        Except.ok 1) ∧
    (df.rows.any maxOrcidViolation = false →
      validate_reagent_resources basic df supportOk noSuperfluous =
        reagent_rest df supportOk noSuperfluous basic.log) ∧
    (df.rows.any maxOrcidViolation = true ↔
      ∃ r ∈ df.rows,
        5 < (agreeEntries r).length ∨ 5 < (disagreeEntries r).length) := by
  have hstep : validate_reagent_resources basic df supportOk noSuperfluous =
      (if df.rows.any maxOrcidViolation then
        (⟨Except.ok 1, basic.log ++ [Channel.stdout]⟩ : VOut)
      else reagent_rest df supportOk noSuperfluous basic.log) := by
    unfold validate_reagent_resources
    rw [h0]
    simp [h1, h2]
  refine ⟨?_, ?_, ?_⟩
  · intro hmax
    rw [hstep, if_pos hmax]
  · intro hmax
    rw [hstep, if_neg (by simp [hmax])]
  · rw [List.any_eq_true]
    constructor
    · intro ⟨r, hr, hv⟩
      rw [maxOrcidViolation] at hv
      simp at hv
      exact ⟨r, hr, hv⟩
    · intro ⟨r, hr, hv⟩
      refine ⟨r, hr, ?_⟩
      rw [maxOrcidViolation]
      simp
      exact hv

def c10_df : DataFrame :=
  ⟨["T", "Contributor", "Agree", "Disagree"],
    [fun c =>
      if c = "Contributor" then "a"
      else if c = "Agree" then "a;b;c;d;e;f"
      else if c = "Disagree" then "NA"
      else "x"]⟩

/-- C10 witness: a row with six entries in its `Agree` cell makes the
validator return `1`. -/
theorem C10_max_orcid_cap_witness :
    (validate_reagent_resources ⟨Except.ok 0, []⟩ c10_df true true).code =
      Except.ok 1 :=
  (C10_max_orcid_cap ⟨Except.ok 0, []⟩ c10_df true true rfl (by decide)
    (by decide)).1 (by decide)

/-! ### Exit codes and failure-output streams -/

/-- The process exit status of `sys.exit(main())`: the integer returned by the
validation function, or -- modelling CPython's behaviour when an exception
propagates out of `main` uncaught -- status `1`. -/
def process_exit (v : VOut) : Nat :=
  match v.code with
  | Except.ok n => n
  | Except.error _ => 1

set_option maxHeartbeats 1000000 in
theorem validate_df_cases (oracle : String → Bool) (df : DataFrame)
    (cfg : DfConfig) :
    validate_df oracle df cfg = ⟨Except.ok 1, [Channel.stderr]⟩ ∨
    validate_df oracle df cfg = ⟨Except.ok 1, [Channel.stderr, Channel.stderr]⟩ ∨
    validate_df oracle df cfg = ⟨Except.error (), []⟩ ∨
    validate_df oracle df cfg = ⟨Except.ok 0, []⟩ := by
  unfold validate_df validate_df_after_columns validate_df_value_checks
  split_ifs <;>
    try (first
      | exact Or.inl rfl
      | exact Or.inr (Or.inl rfl)
      | exact Or.inr (Or.inr (Or.inl rfl))
      | exact Or.inr (Or.inr (Or.inr rfl)))
  all_goals split
  all_goals
    first
      | exact Or.inl rfl
      | exact Or.inr (Or.inl rfl)
      | exact Or.inr (Or.inr (Or.inl rfl))
      | exact Or.inr (Or.inr (Or.inr rfl))

theorem validate_zenodo_json_cases (oracle : String → Bool) (z : ZenodoDict) :
    validate_zenodo_json oracle z = ⟨Except.ok 1, [Channel.stdout]⟩ ∨
    validate_zenodo_json oracle z =
      ⟨Except.ok 1, [Channel.stdout, Channel.stdout]⟩ ∨
    validate_zenodo_json oracle z = ⟨Except.error (), []⟩ ∨
    validate_zenodo_json oracle z = ⟨Except.ok 0, []⟩ := by
  unfold validate_zenodo_json
  split_ifs <;>
    try (first
      | exact Or.inl rfl
      | exact Or.inr (Or.inl rfl)
      | exact Or.inr (Or.inr (Or.inl rfl))
      | exact Or.inr (Or.inr (Or.inr rfl)))
  all_goals split
  all_goals try split_ifs
  all_goals
    first
      | exact Or.inl rfl
      | exact Or.inr (Or.inl rfl)
      | exact Or.inr (Or.inr (Or.inl rfl))
      | exact Or.inr (Or.inr (Or.inr rfl))

theorem validate_bib_file_data_cases (b : BibDatabase) :
    validate_bib_file_data b = ⟨Except.ok 1, [Channel.stderr]⟩ ∨
    validate_bib_file_data b = ⟨Except.ok 0, []⟩ := by
  unfold validate_bib_file_data
  split_ifs <;> first | exact Or.inl rfl | exact Or.inr rfl

/-- All the checks of `validate_df` pass. -/
def validate_df_checks_pass (oracle : String → Bool) (df : DataFrame)
    (cfg : DfConfig) : Prop :=
  requiredOptionalIntersect cfg = false ∧
  unexpectedColumns df cfg = [] ∧
  missingColumns df cfg = [] ∧
  hasLeadingTrailingWhitespace df = false ∧
  hasEmptyRequired df cfg = false ∧
  duplicated_entries_single_value_columns df cfg.unique_single_value_columns = [] ∧
  duplicated_entries_multi_value_columns df cfg.unique_multi_value_columns =
    Except.ok () ∧
  invalidUrls oracle
    (get_multi_column_data df cfg.url_columns cfg.multi_url_columns) = [] ∧
  invalidUrls (fun doi => oracle (doiUrl doi))
    (get_multi_column_data df cfg.doi_columns cfg.multi_doi_columns) = [] ∧
  columnIsInViolation df cfg.column_is_in = false ∧
  multiValueColumnIsInViolation df cfg.multi_value_column_is_in = false

/-- All the checks of `validate_zenodo_json` pass. -/
def validate_zenodo_checks_pass (oracle : String → Bool) (z : ZenodoDict) : Prop :=
  z.keysMatch = true ∧
  z.typesMatch = true ∧
  z.creators.any creatorMissingInfo = false ∧
  hasDup (z.creators.map creatorOrcid) = false ∧
  z.creators.any (fun c => ¬ oracle (orcidUrl (creatorOrcid c))) = false ∧
  z.creators ≠ [] ∧
  order_violated z.creators = false ∧
  z.grants.any (fun g => pyStrip g.id = "") = false ∧
  hasDup (z.grants.map Grant.id) = false

/-- All the checks of `validate_bib_file_data` pass. -/
def validate_bib_checks_pass (b : BibDatabase) : Prop :=
  b.comments = [] ∧
  b.entries.any entryMissingRequired = false ∧
  hasDup (b.entries.map BibEntry.id) = false

set_option maxHeartbeats 1000000 in
theorem validate_df_ok0_iff (oracle : String → Bool) (df : DataFrame)
    (cfg : DfConfig) :
    (validate_df oracle df cfg).code = Except.ok 0 ↔
      validate_df_checks_pass oracle df cfg := by
  unfold validate_df validate_df_after_columns validate_df_value_checks
    validate_df_checks_pass
  split_ifs <;> try simp_all
  all_goals (split <;> try split_ifs)
  all_goals simp_all

set_option maxHeartbeats 1000000 in
theorem validate_zenodo_ok0_iff (oracle : String → Bool) (z : ZenodoDict) :
    (validate_zenodo_json oracle z).code = Except.ok 0 ↔
      validate_zenodo_checks_pass oracle z := by
  unfold validate_zenodo_json validate_zenodo_checks_pass
  split_ifs <;> try simp_all
  all_goals (split <;> try split_ifs)
  all_goals simp_all

theorem validate_bib_ok0_iff (b : BibDatabase) :
    (validate_bib_file_data b).code = Except.ok 0 ↔ validate_bib_checks_pass b := by
  unfold validate_bib_file_data validate_bib_checks_pass
  split_ifs <;> simp_all

/-- C2: exit codes of the validation entry points.  For every input, the
process exit status of each of the three modelled validators
(`validate_df`-based basic validation, `validate_zenodo_json`,
`validate_bib_file_data`) is `0` or `1` and never any other value (an uncaught
runtime failure also terminates the process with status `1`), and it is `0`
exactly when all of the validator's checks pass. -/
theorem C2_exit_codes (oracle : String → Bool) (df : DataFrame) (cfg : DfConfig)
    (zoracle : String → Bool) (z : ZenodoDict) (b : BibDatabase) :
    (process_exit (validate_df oracle df cfg) = 0 ∨
      process_exit (validate_df oracle df cfg) = 1) ∧
    (process_exit (validate_df oracle df cfg) = 0 ↔
      validate_df_checks_pass oracle df cfg) ∧
    (process_exit (validate_zenodo_json zoracle z) = 0 ∨
      process_exit (validate_zenodo_json zoracle z) = 1) ∧
    (process_exit (validate_zenodo_json zoracle z) = 0 ↔
      validate_zenodo_checks_pass zoracle z) ∧
    (process_exit (validate_bib_file_data b) = 0 ∨
      process_exit (validate_bib_file_data b) = 1) ∧
    (process_exit (validate_bib_file_data b) = 0 ↔ validate_bib_checks_pass b) := by
  have hexit : ∀ v : VOut, process_exit v = 0 ↔ v.code = Except.ok 0 := by
    intro v
    unfold process_exit
    cases hc : v.code with
    | ok n => simp
    | error e => simp
  have hdf := validate_df_cases oracle df cfg
  have hz := validate_zenodo_json_cases zoracle z
  have hb := validate_bib_file_data_cases b
  refine ⟨?_, ?_, ?_, ?_, ?_, ?_⟩
  · rcases hdf with h | h | h | h <;> rw [h] <;> simp [process_exit]
  · rw [hexit, validate_df_ok0_iff]
  · rcases hz with h | h | h | h <;> rw [h] <;> simp [process_exit]
  · rw [hexit, validate_zenodo_ok0_iff]
  · rcases hb with h | h <;> rw [h] <;> simp [process_exit]
  · rw [hexit, validate_bib_ok0_iff]

def c6_zenodo_fail : ZenodoDict := ⟨false, true, [], []⟩

/-- C6 counterexample: `validate_zenodo_json` on a file with unexpected keys
returns `1` while its failure description is printed with a plain `print` --
standard output, not standard error. -/
theorem C6_counterexample :
    (validate_zenodo_json (fun _ => true) c6_zenodo_fail).code = Except.ok 1 ∧
    Channel.stderr ∉ (validate_zenodo_json (fun _ => true) c6_zenodo_fail).log ∧
    Channel.stdout ∈ (validate_zenodo_json (fun _ => true) c6_zenodo_fail).log := by
  refine ⟨rfl, by decide, by decide⟩

/-- C6 (amended): when `validate_df` or `validate_bib_file_data` returns `1`,
a failure description has been written to standard error; but
`validate_zenodo_json`, and the reagent-resources-specific checks of
`validate_reagent_resources`, write their failure descriptions to standard
output (plain `print`), with nothing on standard error. -/
theorem C6_failure_streams (oracle : String → Bool) (df : DataFrame)
    (cfg : DfConfig) (b : BibDatabase) (zoracle : String → Bool) (z : ZenodoDict)
    (rdf : DataFrame) (supportOk noSuperfluous : Bool) :
    ((validate_df oracle df cfg).code = Except.ok 1 →
      Channel.stderr ∈ (validate_df oracle df cfg).log) ∧
    ((validate_bib_file_data b).code = Except.ok 1 →
      Channel.stderr ∈ (validate_bib_file_data b).log) ∧
    ((validate_zenodo_json zoracle z).code = Except.ok 1 →
      Channel.stdout ∈ (validate_zenodo_json zoracle z).log ∧
      Channel.stderr ∉ (validate_zenodo_json zoracle z).log) ∧
    ((validate_reagent_resources ⟨Except.ok 0, []⟩ rdf supportOk
        noSuperfluous).code = Except.ok 1 →
      Channel.stdout ∈ (validate_reagent_resources ⟨Except.ok 0, []⟩ rdf
        supportOk noSuperfluous).log ∧
      Channel.stderr ∉ (validate_reagent_resources ⟨Except.ok 0, []⟩ rdf
        supportOk noSuperfluous).log) := by
  refine ⟨?_, ?_, ?_, ?_⟩
  · intro h
    rcases validate_df_cases oracle df cfg with hc | hc | hc | hc <;>
      rw [hc] <;> rw [hc] at h <;> simp_all
  · intro h
    rcases validate_bib_file_data_cases b with hc | hc <;>
      rw [hc] <;> rw [hc] at h <;> simp_all
  · intro h
    rcases validate_zenodo_json_cases zoracle z with hc | hc | hc | hc <;>
      rw [hc] <;> rw [hc] at h <;> simp_all
  · intro h
    unfold validate_reagent_resources reagent_rest at h ⊢
    simp only at h ⊢
    split_ifs at h ⊢ <;> simp_all

/-- C6 witness: a failing basic validation writes to stderr, and a failing
zenodo validation writes to stdout. -/
theorem C6_failure_streams_witness :
    Channel.stderr ∈ (validate_df (fun _ => true) c4_df_mismatch c4_cfg).log ∧
    Channel.stdout ∈ (validate_zenodo_json (fun _ => true) c6_zenodo_fail).log := by
  constructor
  · exact (C6_failure_streams (fun _ => true) c4_df_mismatch c4_cfg ⟨[], []⟩
      (fun _ => true) c6_zenodo_fail c10_df true true).1 (by decide)
  · exact ((C6_failure_streams (fun _ => true) c4_df_mismatch c4_cfg ⟨[], []⟩
      (fun _ => true) c6_zenodo_fail c10_df true true).2.2.1 rfl).1

end Ibex
